import Mathlib

/-!
Verification of the batching, fetching, transforming and saving steps of
`get_dataNAT.py` against its specification. The Python functions are shallowly
embedded as Lean definitions: generators become lists, raised exceptions become
`Except.error` results, and the file system and network are made explicit
(a written-file record, respectively a response oracle).
-/

set_option autoImplicit false

deriving instance DecidableEq for Except

namespace GetDataNAT

universe u

/-! ## Batching utility

Python source:
```
def batched(iterable, n):
    "Batch data into lists of length n. The last batch may be shorter."
    if n < 1:
        raise ValueError("n must be at least one")
    it = iter(iterable)
    while batch := list(islice(it, n)):
        yield batch
```
The `while`/`islice` loop is embedded with a fuel argument equal to the input
length, which dominates the number of iterations, so that the definition is
structurally recursive and computes by reduction.  Each iteration takes the
next `n` elements (`islice(it, n)`) and stops on an empty batch.
-/

/-- One loop iteration takes up to `n` elements (`n ≥ 1` is guaranteed by the
guard in `batched`); the loop ends when no element is left. -/
def chunksAux {α : Type u} (n : Nat) : Nat → List α → List (List α)
  | 0, _ => []
  | _ + 1, [] => []
  | fuel + 1, x :: xs => (x :: xs.take (n - 1)) :: chunksAux n fuel (xs.drop (n - 1))

/-- The groups produced by the generator loop of `batched` on input `xs`. -/
def chunks {α : Type u} (n : Nat) (xs : List α) : List (List α) :=
  chunksAux n xs.length xs

/-- Embedding of `batched(iterable, n)`: the guard raises `ValueError` for
`n < 1`; otherwise the generator yields the chunks in order. -/
def batched {α : Type u} (xs : List α) (n : Int) : Except String (List (List α)) :=
  if n < 1 then .error "n must be at least one" else .ok (chunks n.toNat xs)

theorem chunksAux_join {α : Type u} (n : Nat) :
    ∀ (fuel : Nat) (xs : List α), xs.length ≤ fuel → (chunksAux n fuel xs).flatten = xs
  | 0, [], _ => rfl
  | 0, _ :: _, h => by simp at h
  | _ + 1, [], _ => rfl
  | fuel + 1, x :: xs, h => by
    have hlen : (xs.drop (n - 1)).length ≤ fuel := by
      simp only [List.length_drop]
      simp only [List.length_cons] at h
      omega
    simp only [chunksAux, List.flatten]
    rw [chunksAux_join n fuel (xs.drop (n - 1)) hlen]
    simp [List.take_append_drop]

theorem chunks_join {α : Type u} (n : Nat) (xs : List α) : (chunks n xs).flatten = xs :=
  chunksAux_join n xs.length xs (Nat.le_refl _)

theorem chunksAux_nil {α : Type u} (n fuel : Nat) : chunksAux (α := α) n fuel [] = [] := by
  cases fuel <;> rfl

theorem chunksAux_mem_sizes {α : Type u} (n : Nat) (hn : 1 ≤ n) :
    ∀ (fuel : Nat) (xs : List α), ∀ g ∈ chunksAux n fuel xs, 1 ≤ g.length ∧ g.length ≤ n
  | 0, _, g, hg => by simp [chunksAux] at hg
  | _ + 1, [], g, hg => by simp [chunksAux] at hg
  | fuel + 1, x :: xs, g, hg => by
    simp only [chunksAux, List.mem_cons] at hg
    rcases hg with rfl | hg
    · constructor
      · simp
      · simp only [List.length_cons, List.length_take]
        omega
    · exact chunksAux_mem_sizes n hn fuel (xs.drop (n - 1)) g hg

theorem chunksAux_full_sizes {α : Type u} (n : Nat) (hn : 1 ≤ n) :
    ∀ (fuel : Nat) (xs : List α), xs.length ≤ fuel →
      ∀ (i : Nat) (hi : i + 1 < (chunksAux n fuel xs).length),
        ((chunksAux n fuel xs).get ⟨i, Nat.lt_of_succ_lt hi⟩).length = n
  | 0, _, _, i, hi => by simp [chunksAux] at hi
  | _ + 1, [], _, i, hi => by simp [chunksAux] at hi
  | fuel + 1, x :: xs, h, 0, hi => by
    simp only [chunksAux, List.length_cons, Nat.add_lt_add_iff_right] at hi
    have hne : xs.drop (n - 1) ≠ [] := by
      intro hcon
      rw [hcon, chunksAux_nil] at hi
      simp at hi
    have hlong : n - 1 < xs.length := by
      by_contra hcon
      exact hne (List.drop_eq_nil_of_le (Nat.le_of_not_lt hcon))
    simp only [chunksAux, List.get]
    simp only [List.length_cons, List.length_take]
    omega
  | fuel + 1, x :: xs, h, i + 1, hi => by
    have hlen : (xs.drop (n - 1)).length ≤ fuel := by
      simp only [List.length_drop]
      simp only [List.length_cons] at h
      omega
    simp only [chunksAux, List.length_cons, Nat.add_lt_add_iff_right] at hi
    simp only [chunksAux, List.get]
    exact chunksAux_full_sizes n hn fuel (xs.drop (n - 1)) hlen i hi

/-! ## String helpers and URI path extraction

The per-column transforms use `urllib.parse.urlparse(p).path.split("/")[2]`
and `s[0]`.  Python string splitting and list indexing are embedded over
`List Char` so that every definition is structurally recursive and computes
by kernel reduction.
-/

/-- Python `str.split(sep)` with an explicit one-character separator:
splitting the empty string yields `[""]`, and `k` separators yield `k + 1`
pieces. -/
def splitOnC (sep : Char) : List Char → List (List Char)
  | [] => [[]]
  | c :: cs =>
    match splitOnC sep cs with
    | [] => if c = sep then [[], []] else [[c]]
    | g :: gs => if c = sep then [] :: g :: gs else (c :: g) :: gs

/-- Python `str.split(sep)` on `String`s. -/
def pySplit (s : String) (sep : Char) : List String :=
  (splitOnC sep s.data).map (fun l => String.mk l)

/-- Python list/str indexing `xs[i]` for a non-negative index: raises
`IndexError` when the index is out of range. -/
def pyIndex {α : Type u} (xs : List α) (i : Nat) : Except String α :=
  match xs.get? i with
  | some x => .ok x
  | none => .error "IndexError: list index out of range"

/-- The prefix of `cs` strictly before the first occurrence of `t`
(all of `cs` when `t` does not occur). -/
def takeUntil (t : Char) : List Char → List Char
  | [] => []
  | c :: cs => if c = t then [] else c :: takeUntil t cs

/-- The suffix of `cs` strictly after the first occurrence of `t`;
`none` when `t` does not occur. -/
def afterChar (t : Char) : List Char → Option (List Char)
  | [] => none
  | c :: cs => if c = t then some cs else afterChar t cs

/-- The suffix of `cs` from its first `'/'` on (inclusive); `[]` when no
`'/'` occurs. -/
def fromSlash : List Char → List Char
  | [] => []
  | c :: cs => if c = '/' then c :: cs else fromSlash cs

/-- Model of `urllib.parse.urlparse(s).path` for the hierarchical absolute
URIs this program receives (`scheme://netloc/path...`): the fragment
(after `#`) and query (after `?`) are cut off, the scheme (through the first
`:`) and the network location (through the next `/`) are dropped, and the
remainder, beginning with `/`, is the path.  A string with no scheme and no
leading `//` is all path, as in `urlparse`. -/
def uriPath (s : String) : String :=
  let cs := takeUntil '?' (takeUntil '#' s.data)
  match afterChar ':' cs with
  | some ('/' :: '/' :: rest) => String.mk (fromSlash rest)
  | _ =>
    match cs with
    | '/' :: '/' :: rest => String.mk (fromSlash rest)
    | _ => String.mk cs

/-- Embedding of the per-column URI transform
`lambda p: urllib.parse.urlparse(p).path.split("/")[2]` used for the
`protein`, `pfam`, `cofactor` and `chebi` columns. -/
def lastSegIdx2 (p : String) : Except String String :=
  pyIndex (pySplit (uriPath p) '/') 2

/-- The final segment of the URI's path, following the spec's words
("extract the last path segment of a URI string"); to be compared with the
source's `lastSegIdx2`. -/
def lastSegment (p : String) : String :=
  (pySplit (uriPath p) '/').getLastD ""

/-- Embedding of the per-cell transform `lambda s: s[0]` used for the
`reaction_side_order` column: Python raises `IndexError` on an empty cell. -/
def py_first (s : String) : Except String String :=
  match s.data with
  | [] => .error "IndexError: string index out of range"
  | c :: _ => .ok (String.mk [c])

/-- Model of `pathlib.Path.suffix`: the extension of the final path
component, from its last dot on; empty when the name has no dot, when the
only dot leads the name, or when the last dot ends it. -/
def pathSuffix (p : String) : String :=
  let name := (splitOnC '/' p.data).getLastD []
  let r := name.reverse
  match afterChar '.' r with
  | none => ""
  | some stemRev =>
    let extRev := takeUntil '.' r
    if stemRev = [] then ""
    else if extRev = [] then ""
    else String.mk ('.' :: extRev.reverse)

/-! ## Tables

A pandas `DataFrame` is column-oriented; before `set_index` it is a list of
named columns (`DF`), after `set_index("protein", drop=True)` one column has
become the row index (`IDF`).  Cells are strings (every transformed column in
the script holds text). -/

/-- A data frame before `set_index`: named columns in order. -/
structure DF where
  cols : List (String × List String)
deriving DecidableEq, Repr

/-- A data frame after `set_index(name, drop=True)`: the index column has
been removed from the columns and keys the rows. -/
structure IDF where
  indexName : String
  index : List String
  cols : List (String × List String)
deriving DecidableEq, Repr

/-- Column lookup (first match), as in `df[name]`. -/
def lookupCol (name : String) : List (String × List String) → Option (List String)
  | [] => none
  | (k, v) :: tl => if k = name then some v else lookupCol name tl

/-- Reading a column, `df[name]`: pandas raises `KeyError` for a missing
column. -/
def DF.getCol (df : DF) (name : String) : Except String (List String) :=
  match lookupCol name df.cols with
  | some c => .ok c
  | none => .error ("KeyError: " ++ name)

/-- Column assignment `df[name] = vals` for a column that is present:
replaces it in place. -/
def DF.setCol (df : DF) (name : String) (vals : List String) : DF :=
  ⟨df.cols.map (fun p => if p.1 = name then (name, vals) else p)⟩

/-- Embedding of `df[name] = df[name].apply(f)`: the first cell on which `f`
raises aborts the whole column assignment. -/
def DF.applyCol (df : DF) (name : String) (f : String → Except String String) :
    Except String DF := do
  let col ← df.getCol name
  let col2 ← col.mapM f
  pure (df.setCol name col2)

/-- Embedding of `df.set_index(name, drop=True)`. -/
def DF.set_index (df : DF) (name : String) : Except String IDF := do
  let col ← df.getCol name
  pure ⟨name, col, df.cols.filter (fun p => p.1 ≠ name)⟩

/-! ## Saving

Python source:
```
def save_data(data: pd.DataFrame, path: pathlib.Path) -> None:
    with open(path, mode="bw") as writer:
        if path.suffix == ".xlsx":
            data.to_excel(writer, index=True, engine="openpyxl")
        if path.suffix == ".csv":
            data.to_csv(writer, index=True)
```
`open(path, mode="bw")` opens the file for binary writing, which creates it
(or truncates an existing one) to zero bytes at once, before either suffix
test runs; the `with` block then closes it whether or not anything was
written. -/

/-- The cell grid of the saved table, index column first, header row first:
this is what both `to_csv(index=True)` (one comma-separated line per row)
and `to_excel(index=True)` (one sheet row per row) write. -/
def sheetGrid (df : IDF) : List (List String) :=
  (df.indexName :: df.cols.map (fun p => p.1)) ::
    (List.range df.index.length).map
      (fun i => df.index.getD i "" :: df.cols.map (fun p => p.2.getD i ""))

/-- Model of `DataFrame.to_csv(writer, index=True)`: the grid rendered as
comma-separated lines — header row, then one line per row, index value
first. -/
def to_csv (df : IDF) : String :=
  String.intercalate "\n" ((sheetGrid df).map (String.intercalate ",")) ++ "\n"

/-- What ends up in the file opened by `save_data`. -/
inductive FileContent where
  /-- The file was created (or truncated) but nothing was written to it. -/
  | empty
  /-- `to_csv` output. -/
  | csvFile (text : String)
  /-- A spreadsheet workbook holding the given cell grid. -/
  | xlsxFile (grid : List (List String))
deriving DecidableEq, Repr

/-- The file-system effect of one `save_data` call: whether a file now
exists at `path`, and its content. -/
structure FsEffect where
  fileCreated : Bool
  content : FileContent
deriving DecidableEq, Repr

/-- Embedding of `save_data(data, path)`: `open` creates the file
unconditionally, then at most one of the two suffix tests writes. -/
def save_data (data : IDF) (path : String) : FsEffect :=
  let afterOpen : FileContent := .empty
  let afterXlsx :=
    if pathSuffix path = ".xlsx" then FileContent.xlsxFile (sheetGrid data) else afterOpen
  let afterCsv :=
    if pathSuffix path = ".csv" then FileContent.csvFile (to_csv data) else afterXlsx
  ⟨true, afterCsv⟩

/-! ## Fetching

Python source:
```
def collect_data(query: SelectQuery, url: str) -> pd.DataFrame:
    response = requests.get(
        url, params={"query": query.get_pretty_text(), "format": "csv"}, stream=True
    )
    response.raise_for_status()
    if response.ok:
        data_frame = pd.read_csv(
            io.StringIO(response.text), sep=",", header=0, skipinitialspace=True
        )
    return data_frame
```
The network is an oracle giving the response to the `k`-th request issued;
`collect_data` is its result paired with the number of requests it made.
`requests.Response.raise_for_status` raises `HTTPError` exactly for status
codes 400–599, and `requests.Response.ok` is defined in the library as
"`raise_for_status` would not raise". If the guard `response.ok` were false
after `raise_for_status` returned, `return data_frame` would hit an unbound
variable (`NameError`); that branch is kept in the embedding. -/

/-- An HTTP response: status code and body text. -/
structure Response where
  status : Nat
  text : String
deriving DecidableEq, Repr

/-- Model of `requests.Response.raise_for_status`: raises for 4xx and 5xx
status codes. -/
def raiseForStatusErr (r : Response) : Bool :=
  decide (400 ≤ r.status ∧ r.status < 600)

/-- Model of `requests.Response.ok`: true exactly when `raise_for_status`
does not raise. -/
def respOk (r : Response) : Bool :=
  ! raiseForStatusErr r

/-- A parsed tabular response: header names and records. -/
structure Csv where
  header : List String
  records : List (List String)
deriving DecidableEq, Repr

/-- One line split at commas; `skipinitialspace=True` drops the spaces that
follow each delimiter. -/
def parseLine (l : List Char) : List String :=
  (splitOnC ',' l).map (fun cell => String.mk (cell.dropWhile (fun c => c = ' ')))

/-- Model of `pd.read_csv(..., sep=",", header=0, skipinitialspace=True)`:
the first non-blank line is the header, the rest are records; a body with no
lines at all raises `EmptyDataError`. -/
def read_csv (text : String) : Except String Csv :=
  let lines := (splitOnC '\n' text.data).filter (fun l => l ≠ [])
  match lines with
  | [] => .error "EmptyDataError: No columns to parse from file"
  | h :: rs => .ok ⟨parseLine h, rs.map parseLine⟩

/-- One Python exception from `collect_data`. -/
inductive PyError where
  | httpError (status : Nat)
  | parseError (msg : String)
  | nameError
deriving DecidableEq, Repr

/-- Embedding of `collect_data(query, url)`: one GET request, then
`raise_for_status`, the `response.ok` guard and CSV parsing.  The second
component counts the requests issued (the function never retries). -/
def collect_data (net : Nat → Response) : Except PyError Csv × Nat :=
  let response := net 0
  let requestsMade := 1
  if raiseForStatusErr response then
    (.error (.httpError response.status), requestsMade)
  else
    match (if respOk response then some (read_csv response.text) else none) with
    | some (.ok df) => (.ok df, requestsMade)
    | some (.error e) => (.error (.parseError e), requestsMade)
    | none => (.error .nameError, requestsMade)

/-! ## The UniProt query and `get_uniprot`

Python source:
```
def get_uniprot(features):
    uniprot_cfg = UC.UniprotSearchConfig(
        data_selector=UC.UniprotSelection([UC.Feature.PROTEIN] + features),
        data_filter=UC.UniprotSearchFilter(pfams=["PF00067"]),
    )
    query = get_query(uniprot_cfg, UniprotQueryBuilder)
    uniprot_data = collect_data(query, UC.URL)
    uniprot_data["protein"] = uniprot_data["protein"].apply(
        lambda p: urllib.parse.urlparse(p).path.split("/")[2]
    )
    uniprot_data = uniprot_data.set_index("protein", drop=True)
    return uniprot_data
```
The configuration types mirror `bioinfdatacollector.uniprot.config`; the
fetch (`collect_data` at `UC.URL`) is an oracle from the issued query to the
raw data frame. -/

/-- The UniProt features named by the script (`UC.Feature`). -/
inductive UFeature where
  | PROTEIN
  | ORGANISM
  | KINGDOM
  | SUPERKINGDOM
  | NAME
  | SUBMITTED_NAME
  | PFAM
  | SEQUENCE
  | REACTION
deriving DecidableEq, Repr

/-- `UC.UniprotSelection`: the ordered fields to request. -/
structure UniprotSelection where
  fields : List UFeature
deriving DecidableEq, Repr

/-- `UC.UniprotSearchFilter(pfams=...)`: restrict to the given Pfam
families. -/
structure UniprotSearchFilter where
  pfams : List String
deriving DecidableEq, Repr

/-- `UC.UniprotSearchConfig`: a field selection paired with a filter. -/
structure UniprotSearchConfig where
  data_selector : UniprotSelection
  data_filter : UniprotSearchFilter
deriving DecidableEq, Repr

/-- The content of the built SELECT query: requested fields in order, and
the filter predicate. -/
structure UQuery where
  fields : List UFeature
  pfams : List String
deriving DecidableEq, Repr

/-- Modelled from the spec: `UniprotQueryBuilder.get_query` (library code not
under `src/`) is deterministic and translates a configuration into a SELECT
query that requests the configured fields in the configured order and
applies the configured filter (spec sections 4.2 and 3). -/
def uniprotBuild (cfg : UniprotSearchConfig) : UQuery :=
  ⟨cfg.data_selector.fields, cfg.data_filter.pfams⟩

/-- Embedding of `get_uniprot(features)`, with the fetch step
(`collect_data(query, UC.URL)`) abstracted into the oracle `fetch`; returns
the query the script builds and issues, and the transformed, re-indexed
table (or the first raised exception). -/
def get_uniprot (features : List UFeature) (fetch : UQuery → DF) :
    UQuery × Except String IDF :=
  let uniprot_cfg : UniprotSearchConfig :=
    ⟨⟨[UFeature.PROTEIN] ++ features⟩, ⟨["PF00067"]⟩⟩
  let query := uniprotBuild uniprot_cfg
  let uniprot_data := fetch query
  (query, do
    let d ← uniprot_data.applyCol "protein" lastSegIdx2
    d.set_index "protein")

/-! ## Concrete sample inputs -/

/-- A one-row sample table for concrete instances. -/
def dfEx : IDF :=
  ⟨"protein", ["P1"], [("organism", ["Homo sapiens"])]⟩

/-- A sample fetch oracle: every query is answered by a one-row table whose
`protein` column holds a UniProt URI. -/
def wFetch : UQuery → DF :=
  fun _ => ⟨[("protein", ["http://purl.uniprot.org/uniprot/P12345"])]⟩

/-! ## Theorems -/

theorem batched_ok {α : Type u} (xs : List α) (n : Int) (gs : List (List α))
    (h : batched xs n = .ok gs) : gs = chunks n.toNat xs := by
  unfold batched at h
  split at h
  · exact absurd h (by simp)
  · injection h with h2
    exact h2.symm

theorem lookupCol_map_set (name : String) (v : List String) :
    ∀ (cols : List (String × List String)) (c : List String),
      lookupCol name cols = some c →
      lookupCol name (cols.map (fun p => if p.1 = name then (name, v) else p)) = some v
  | [], c, h => by simp [lookupCol] at h
  | (k, w) :: tl, c, h => by
    by_cases hk : k = name
    · subst hk
      simp only [List.map_cons]
      simp [lookupCol]
    · simp only [lookupCol, if_neg hk] at h
      simp only [List.map_cons, if_neg hk]
      simp only [lookupCol, if_neg hk]
      exact lookupCol_map_set name v tl c h

/-- C1: for every sequence `S` and positive `n`, concatenating the groups of
`batched(S, n)` in order reconstructs `S` exactly. -/
theorem batched_concat_exact {α : Type u} (xs : List α) (n : Int) (gs : List (List α))
    (h : batched xs n = .ok gs) : gs.flatten = xs := by
  rw [batched_ok xs n gs h]
  exact chunks_join n.toNat xs

/-- Witness for C1 at `S = [1, 2, 3]`, `n = 2`. -/
theorem batched_concat_exact_witness :
    batched [1, 2, 3] (2 : Int) = .ok [[1, 2], [3]] ∧
      ([[1, 2], [3]] : List (List Nat)).flatten = [1, 2, 3] :=
  ⟨by decide, batched_concat_exact [1, 2, 3] (2 : Int) [[1, 2], [3]] (by decide)⟩

/-- C3: for every sequence `S` and every `n < 1`, `batched(S, n)` raises
`ValueError` before yielding any group or consuming any element: the result
is the invalid-argument error, for every `S`. -/
theorem batched_invalid_size {α : Type u} (xs : List α) (n : Int) (h : n < 1) :
    batched xs n = .error "n must be at least one" := by
  unfold batched
  simp [h]

/-- Witness for C3 at a nonempty `S` and `n = 0`. -/
theorem batched_invalid_size_witness :
    ((0 : Int) < 1) ∧ batched ["a", "b"] (0 : Int) = .error "n must be at least one" :=
  ⟨by decide, batched_invalid_size ["a", "b"] 0 (by decide)⟩

/-- C4: for positive `n`, `batched` never yields an empty group, every group
except possibly the last has exactly `n` elements, the last group's size lies
in `[1, n]`, an empty input yields no groups, and batching 45 identifiers
with group size 20 yields groups of sizes `[20, 20, 5]`. -/
theorem batched_group_sizes {α : Type u} (xs : List α) (n : Int) (gs : List (List α))
    (hn : 1 ≤ n) (h : batched xs n = .ok gs) :
    (∀ g ∈ gs, 1 ≤ g.length ∧ g.length ≤ n.toNat) ∧
    (∀ (i : Nat) (hi : i + 1 < gs.length),
      (gs.get ⟨i, Nat.lt_of_succ_lt hi⟩).length = n.toNat) ∧
    (xs = [] → gs = []) ∧
    (∃ gs45 : List (List Nat), batched (List.range 45) (20 : Int) = .ok gs45 ∧
      gs45.map List.length = [20, 20, 5]) := by
  have hn1 : 1 ≤ n.toNat := by omega
  rw [batched_ok xs n gs h]
  refine ⟨?_, ?_, ?_, ?_⟩
  · exact chunksAux_mem_sizes n.toNat hn1 xs.length xs
  · exact chunksAux_full_sizes n.toNat hn1 xs.length xs (Nat.le_refl _)
  · intro h0
    subst h0
    rfl
  · exact ⟨chunks 20 (List.range 45), by decide, by decide⟩

/-- Witness for C4 at `S = [0]`, `n = 1`. -/
theorem batched_group_sizes_witness :
    (∀ g ∈ [[0]], 1 ≤ g.length ∧ g.length ≤ (1 : Int).toNat) ∧
    (∀ (i : Nat) (hi : i + 1 < ([[0]] : List (List Nat)).length),
      (([[0]] : List (List Nat)).get ⟨i, Nat.lt_of_succ_lt hi⟩).length = (1 : Int).toNat) ∧
    (([0] : List Nat) = [] → ([[0]] : List (List Nat)) = []) ∧
    (∃ gs45 : List (List Nat), batched (List.range 45) (20 : Int) = .ok gs45 ∧
      gs45.map List.length = [20, 20, 5]) :=
  batched_group_sizes [0] 1 [[0]] (by decide) (by decide)

/-- C2 counterexample: saving a table to `"out.txt"` does produce a file on
disk — `open(path, mode="bw")` creates (or truncates) it before the suffix
is examined — so the claim that no file is produced fails; the file is left
empty and no error is raised. -/
theorem save_txt_creates_file :
    (save_data dfEx "out.txt").fileCreated = true ∧
    (save_data dfEx "out.txt").content = .empty := by
  decide

/-- C2 (amended): for every table and every output path whose extension is
neither `.csv` nor `.xlsx`, `save_data` raises no error and writes no table
content, but it creates (or truncates to empty) the file at the path,
because the file is opened for writing before the extension is checked. -/
theorem save_data_unrecognized (df : IDF) (path : String)
    (h1 : pathSuffix path ≠ ".csv") (h2 : pathSuffix path ≠ ".xlsx") :
    save_data df path = ⟨true, .empty⟩ := by
  unfold save_data
  simp [h1, h2]

/-- Witness for the amended C2 at path `"out.txt"`. -/
theorem save_data_unrecognized_witness :
    (pathSuffix "out.txt" ≠ ".csv" ∧ pathSuffix "out.txt" ≠ ".xlsx") ∧
    save_data dfEx "out.txt" = ⟨true, .empty⟩ :=
  ⟨⟨by decide, by decide⟩,
    save_data_unrecognized dfEx "out.txt" (by decide) (by decide)⟩

/-- C7: a `.csv` path gets the comma-separated rendering of the grid and an
`.xlsx` path gets a workbook holding the grid; the grid starts with the
header row and every data row starts with the index value — the index column
is included in both formats. -/
theorem save_data_formats (df : IDF) (path : String) :
    (pathSuffix path = ".csv" →
      (save_data df path).content = .csvFile (to_csv df)) ∧
    (pathSuffix path = ".xlsx" →
      (save_data df path).content = .xlsxFile (sheetGrid df)) ∧
    (sheetGrid df).head? = some (df.indexName :: df.cols.map (fun p => p.1)) ∧
    (∀ i, i < df.index.length →
      (sheetGrid df).get? (i + 1) =
        some (df.index.getD i "" :: df.cols.map (fun p => p.2.getD i ""))) := by
  refine ⟨?_, ?_, rfl, ?_⟩
  · intro hcsv
    unfold save_data
    simp [hcsv]
  · intro hxlsx
    have hne : pathSuffix path ≠ ".csv" := by
      rw [hxlsx]
      decide
    unfold save_data
    simp [hxlsx, hne]
  · intro i hi
    unfold sheetGrid
    rw [List.get?_cons_succ, List.get?_map, List.get?_range hi]
    rfl

/-- Witness for C7 at paths `"a.csv"` and `"a.xlsx"`. -/
theorem save_data_formats_witness :
    (save_data dfEx "a.csv").content = .csvFile (to_csv dfEx) ∧
    (save_data dfEx "a.xlsx").content = .xlsxFile (sheetGrid dfEx) :=
  ⟨(save_data_formats dfEx "a.csv").1 (by decide),
    (save_data_formats dfEx "a.xlsx").2.1 (by decide)⟩

/-- C5 counterexample: on `"http://example.org/a/b/c"` the per-column URI
transform yields `"b"`, the segment at index 2, while the last path segment
is `"c"`; so the transform does not extract the last path segment of every
URI. -/
theorem uri_seg2_counterexample :
    lastSegIdx2 "http://example.org/a/b/c" ≠
      .ok (lastSegment "http://example.org/a/b/c") ∧
    lastSegIdx2 "http://example.org/a/b/c" = .ok "b" ∧
    lastSegment "http://example.org/a/b/c" = "c" := by
  decide

/-- C5 (amended): the per-column URI transform extracts the path segment at
index 2 of the slash-split URI path; this is the last path segment exactly
when the path splits into three parts (a path of the form `/x/y`), as for
every URI this script processes; in particular it yields `"ABC123"` on
`"http://example.org/resource/ABC123"`. -/
theorem uri_transform_amended (p : String)
    (h : (pySplit (uriPath p) '/').length = 3) :
    lastSegIdx2 p = .ok (lastSegment p) ∧
    lastSegIdx2 "http://example.org/resource/ABC123" = .ok "ABC123" := by
  constructor
  · obtain ⟨a, b, c, habc⟩ := List.length_eq_three.mp h
    unfold lastSegIdx2 lastSegment
    rw [habc]
    rfl
  · decide

/-- Witness for the amended C5 at the spec's example URI. -/
theorem uri_transform_amended_witness :
    (pySplit (uriPath "http://example.org/resource/ABC123") '/').length = 3 ∧
    (lastSegIdx2 "http://example.org/resource/ABC123" =
        .ok (lastSegment "http://example.org/resource/ABC123") ∧
      lastSegIdx2 "http://example.org/resource/ABC123" = .ok "ABC123") :=
  ⟨by decide, uri_transform_amended "http://example.org/resource/ABC123" (by decide)⟩

/-- C8: the transforms fail loudly on malformed input — the segment
extraction raises `IndexError` (and never returns a value, blank or
otherwise) on a URI whose path has too few segments, and the first-element
unwrapping raises `IndexError` on an empty cell. -/
theorem transforms_fail_loudly (uri : String)
    (h : (pySplit (uriPath uri) '/').length ≤ 2) :
    (∃ e, lastSegIdx2 uri = .error e) ∧
    (∀ s, lastSegIdx2 uri ≠ .ok s) ∧
    (∃ e, py_first "" = .error e) ∧
    (∀ s, py_first "" ≠ .ok s) := by
  have hidx : lastSegIdx2 uri = .error "IndexError: list index out of range" := by
    unfold lastSegIdx2 pyIndex
    have hnone : (pySplit (uriPath uri) '/').get? 2 = none := by
      rw [List.get?_eq_none]
      omega
    rw [hnone]
  have hfst : py_first "" = .error "IndexError: string index out of range" := by
    decide
  refine ⟨⟨_, hidx⟩, ?_, ⟨_, hfst⟩, ?_⟩
  · intro s hcon
    rw [hidx] at hcon
    exact Except.noConfusion hcon
  · intro s hcon
    rw [hfst] at hcon
    exact Except.noConfusion hcon

/-- Witness for C8 at a URI whose path is empty. -/
theorem transforms_fail_loudly_witness :
    (pySplit (uriPath "http://example.org") '/').length ≤ 2 ∧
    ((∃ e, lastSegIdx2 "http://example.org" = .error e) ∧
      (∀ s, lastSegIdx2 "http://example.org" ≠ .ok s) ∧
      (∃ e, py_first "" = .error e) ∧
      (∀ s, py_first "" ≠ .ok s)) :=
  ⟨by decide, transforms_fail_loudly "http://example.org" (by decide)⟩

/-- C6: `collect_data` issues exactly one request (it never retries); it
raises `HTTPError` — and returns no table — whenever the response status is
an HTTP error status (4xx or 5xx, the statuses `raise_for_status` treats as
non-success); and on a success status it returns the table parsed from the
CSV response body. -/
theorem collect_data_transport (net : Nat → Response) :
    (collect_data net).2 = 1 ∧
    (400 ≤ (net 0).status ∧ (net 0).status < 600 →
      (collect_data net).1 = .error (.httpError (net 0).status)) ∧
    (¬(400 ≤ (net 0).status ∧ (net 0).status < 600) →
      ∀ df, read_csv (net 0).text = .ok df → (collect_data net).1 = .ok df) := by
  refine ⟨?_, ?_, ?_⟩
  · unfold collect_data
    dsimp only
    split
    · rfl
    · split <;> rfl
  · intro hbad
    have hr : raiseForStatusErr (net 0) = true := by
      unfold raiseForStatusErr
      exact decide_eq_true hbad
    unfold collect_data
    simp [hr]
  · intro hgood df hdf
    have hr : raiseForStatusErr (net 0) = false := by
      unfold raiseForStatusErr
      exact decide_eq_false hgood
    unfold collect_data respOk
    simp [hr, hdf]

/-- Witness for C6: a 404 response raises, a 200 response with a two-column
body parses. -/
theorem collect_data_transport_witness :
    (collect_data (fun _ => (⟨404, ""⟩ : Response))).1 = .error (.httpError 404) ∧
    (collect_data (fun _ => (⟨200, "a,b\nx,y"⟩ : Response))).1 =
      .ok ⟨["a", "b"], [["x", "y"]]⟩ :=
  ⟨(collect_data_transport (fun _ => (⟨404, ""⟩ : Response))).2.1 (by decide),
    (collect_data_transport (fun _ => (⟨200, "a,b\nx,y"⟩ : Response))).2.2 (by decide)
      ⟨["a", "b"], [["x", "y"]]⟩ (by decide)⟩

/-- C9: whenever `raise_for_status` returns without raising, `response.ok`
is necessarily true, so `data_frame` is always bound: `collect_data` either
raises or returns a frame, and the unbound-variable (`NameError`) branch is
unreachable, for every response. -/
theorem collect_data_no_nameerror (net : Nat → Response) :
    (collect_data net).1 ≠ .error PyError.nameError := by
  unfold collect_data respOk
  dsimp only
  split
  · simp
  · next hok =>
    have hr : raiseForStatusErr (net 0) = false := by
      revert hok
      cases raiseForStatusErr (net 0) <;> simp
    rw [hr]
    cases hcsv : read_csv (net 0).text with
    | ok df => simp [hcsv]
    | error e => simp [hcsv]

/-- C10: `get_uniprot` issues the query built from `Feature.PROTEIN`
prepended ahead of the caller's features with the fixed filter
`pfams=["PF00067"]`, and the returned table is indexed by the accession
extracted from the `protein` URI column. -/
theorem get_uniprot_spec (features : List UFeature) (fetch : UQuery → DF)
    (ps accs : List String)
    (hcol : lookupCol "protein"
      (fetch ⟨UFeature.PROTEIN :: features, ["PF00067"]⟩).cols = some ps)
    (hmap : ps.mapM lastSegIdx2 = .ok accs) :
    (get_uniprot features fetch).1 = ⟨UFeature.PROTEIN :: features, ["PF00067"]⟩ ∧
    ∃ idf, (get_uniprot features fetch).2 = .ok idf ∧
      idf.indexName = "protein" ∧ idf.index = accs := by
  refine ⟨rfl, ?_⟩
  have hget : (fetch ⟨UFeature.PROTEIN :: features, ["PF00067"]⟩).getCol "protein"
      = .ok ps := by
    unfold DF.getCol
    rw [hcol]
  have happly : (fetch ⟨UFeature.PROTEIN :: features, ["PF00067"]⟩).applyCol
      "protein" lastSegIdx2
      = .ok ((fetch ⟨UFeature.PROTEIN :: features, ["PF00067"]⟩).setCol "protein" accs) := by
    unfold DF.applyCol
    rw [hget]
    show (do
      let col2 ← ps.mapM lastSegIdx2
      pure ((fetch ⟨UFeature.PROTEIN :: features, ["PF00067"]⟩).setCol "protein" col2) :
        Except String DF) = _
    rw [hmap]
    rfl
  have hset : lookupCol "protein"
      ((fetch ⟨UFeature.PROTEIN :: features, ["PF00067"]⟩).setCol "protein" accs).cols
      = some accs := by
    unfold DF.setCol
    exact lookupCol_map_set "protein" accs _ ps hcol
  have hidx : ((fetch ⟨UFeature.PROTEIN :: features, ["PF00067"]⟩).setCol
      "protein" accs).set_index "protein"
      = .ok ⟨"protein", accs,
          ((fetch ⟨UFeature.PROTEIN :: features, ["PF00067"]⟩).setCol "protein" accs).cols.filter
            (fun p => p.1 ≠ "protein")⟩ := by
    unfold DF.set_index DF.getCol
    rw [hset]
    rfl
  refine ⟨⟨"protein", accs,
    ((fetch ⟨UFeature.PROTEIN :: features, ["PF00067"]⟩).setCol "protein" accs).cols.filter
      (fun p => p.1 ≠ "protein")⟩, ?_, rfl, rfl⟩
  show ((fetch ⟨UFeature.PROTEIN :: features, ["PF00067"]⟩).applyCol "protein"
      lastSegIdx2).bind (fun d => d.set_index "protein") = _
  rw [happly]
  exact hidx

/-- Witness for C10: one row, one feature list, one UniProt URI. -/
theorem get_uniprot_spec_witness :
    (get_uniprot [] wFetch).1 = ⟨[UFeature.PROTEIN], ["PF00067"]⟩ ∧
    ∃ idf, (get_uniprot [] wFetch).2 = .ok idf ∧
      idf.indexName = "protein" ∧ idf.index = ["P12345"] :=
  get_uniprot_spec [] wFetch ["http://purl.uniprot.org/uniprot/P12345"] ["P12345"]
    (by decide) (by decide)

end GetDataNAT
